import Mathlib

/-!
Verification of the conversation state machine and plan deriver of
`src/frontend/script.js` (StudySyncPro front end).

The JavaScript core is shallowly embedded below:
* the answer object `userData` becomes an insertion-ordered association
  list (`Store`) with JS-object get/set semantics;
* `conversationSteps`, the cursor `currentStep` and `processUserInput`
  (script.js:476-579) become a state machine `ConvState`/`processUserInput`;
* the inline plan-derivation block (script.js:546-572) becomes the pure
  function `generatePlan`, with the JS string/number coercions
  (`||` defaulting, `parseInt`, `split`, `trim`, `toLowerCase`,
  `includes`, `>` against NaN) modelled explicitly;
* DOM rendering (`addMessage`, `renderPlan`), timers and network calls are
  presentation-adapter concerns and are outside the embedded core; the
  events the core hands to them are captured by `SubmitResult`.
-/

/-! ## JS string and number primitives -/

/-- Shallow embedding of JS `String.prototype.trim`: drop whitespace from
both ends (ASCII whitespace; the JS Unicode whitespace set coincides with
it on the inputs modelled here). -/
def jsTrim (s : String) : String :=
  String.mk (((s.toList.dropWhile Char.isWhitespace).reverse.dropWhile Char.isWhitespace).reverse)

/-- Shallow embedding of JS `String.prototype.toLowerCase` (ASCII). -/
def jsToLower (s : String) : String :=
  String.mk (s.toList.map Char.toLower)

/-- One membrane of JS `hay.includes(needle)`: checks whether `needle` is a
prefix of some suffix of `hay` (character lists). -/
def charsContain (needle : List Char) : List Char → Bool
  | [] => needle.isEmpty
  | c :: rest => needle.isPrefixOf (c :: rest) || charsContain needle rest

/-- Shallow embedding of JS `String.prototype.includes`. -/
def strContains (hay needle : String) : Bool :=
  charsContain needle.toList hay.toList

/-- JS truthiness of a possibly-absent string (`undefined` and `""` are
falsy, every other string truthy). -/
def strTruthy : Option String → Bool
  | none => false
  | some s => s != ""

/-- JS `o || d` for a possibly-absent string: the answer itself when
truthy, the default otherwise. -/
def jsOrStr (o : Option String) (d : String) : String :=
  match o with
  | none => d
  | some s => if s = "" then d else s

/-- JS `o || d` for a `parseInt` result: `NaN` (modelled `none`) and `0`
are falsy and replaced by the default; any other integer is kept. -/
def jsOrInt (o : Option Int) (d : Int) : Int :=
  match o with
  | none => d
  | some v => if v = 0 then d else v

/-- JS `o > n` where `o` is a `parseInt` result: every comparison against
`NaN` is false. -/
def jsGT (o : Option Int) (n : Int) : Bool :=
  match o with
  | none => false
  | some v => n < v

/-- Accumulate a maximal leading run of decimal digits. -/
def decDigitsVal (acc : Nat) : List Char → Nat
  | [] => acc
  | c :: cs => if c.isDigit then decDigitsVal (10 * acc + (c.toNat - 48)) cs else acc

/-- Hexadecimal digit test, for the `0x` branch of `parseInt`. -/
def isHexDigit (c : Char) : Bool :=
  c.isDigit || (97 ≤ c.toNat && c.toNat ≤ 102) || (65 ≤ c.toNat && c.toNat ≤ 70)

/-- Accumulate a maximal leading run of hexadecimal digits. -/
def hexDigitsVal (acc : Nat) : List Char → Nat
  | [] => acc
  | c :: cs =>
    if isHexDigit c then
      hexDigitsVal (16 * acc + (if c.isDigit then c.toNat - 48
        else if 97 ≤ c.toNat then c.toNat - 87 else c.toNat - 55)) cs
    else acc

/-- Shallow embedding of JS `parseInt(s)` with no radix argument: skip
leading whitespace, read an optional sign, treat a `0x`/`0X` prefix as
hexadecimal, parse the maximal leading digit run and ignore the rest;
`none` models `NaN` (no digit found). -/
def jsParseInt (s : String) : Option Int :=
  let cs := s.toList.dropWhile Char.isWhitespace
  let signed : Int × List Char :=
    match cs with
    | '-' :: rest => (-1, rest)
    | '+' :: rest => (1, rest)
    | _ => (1, cs)
  match signed.2 with
  | '0' :: 'x' :: rest =>
    if isHexDigit (rest.headD ' ') then some (signed.1 * hexDigitsVal 0 rest) else none
  | '0' :: 'X' :: rest =>
    if isHexDigit (rest.headD ' ') then some (signed.1 * hexDigitsVal 0 rest) else none
  | other =>
    if (other.headD ' ').isDigit then some (signed.1 * decDigitsVal 0 other) else none

/-- `parseInt` applied to a possibly-absent answer: `parseInt(undefined)`
is `NaN`, so absence maps to `none`. -/
def jsParseIntOpt (o : Option String) : Option Int :=
  match o with
  | none => none
  | some s => jsParseInt s

/-- JS `s.split(sep)` for a single-character separator, on character
lists: `"".split(',')` is `[""]`, separators at the ends produce empty
fields. -/
def splitOnChar (sep : Char) : List Char → List (List Char)
  | [] => [[]]
  | c :: rest =>
    let r := splitOnChar sep rest
    if c = sep then [] :: r
    else (c :: r.headD []) :: r.tail

/-- Shallow embedding of the JS `userData.subjects.split(',')` call at
script.js:546 (single-character separator). -/
def jsSplitComma (s : String) : List String :=
  (splitOnChar ',' s.toList).map (fun cs => String.mk cs)

/-- JS `(10*x rounded to nearest, ties away from the lower value) / 10`:
the rational content of `Number.prototype.toFixed(1)`, which picks the
closest multiple of `1/10` and the larger one on a tie.  (On the IEEE
double actually divided in the source the result can differ only when the
quotient sits within one ulp of a `.x5` boundary, which stays inside the
`±0.05` bound proved below.) -/
def round1 (x : ℚ) : ℚ :=
  ((⌊10 * x + 1 / 2⌋ : ℤ) : ℚ) / 10

/-! ## The answer store (the `userData` object, script.js:486) -/

/-- `userData` is a plain JS object used as a string-keyed record; we model
it as an insertion-ordered association list. -/
abbrev Store := List (String × String)

/-- JS property read `obj[k]`: `none` models `undefined`. -/
def storeGet (m : Store) (k : String) : Option String :=
  match m with
  | [] => none
  | (k2, v) :: rest => if k2 = k then some v else storeGet rest k

/-- JS property write `obj[k] = v`: overwrite in place if the key exists,
append otherwise. -/
def storeSet (m : Store) (k v : String) : Store :=
  match m with
  | [] => [(k, v)]
  | (k2, v2) :: rest => if k2 = k then (k2, v) :: rest else (k2, v2) :: storeSet rest k v

/-! ## The conversation script (script.js:476-483) -/

/-- One entry of `conversationSteps`. -/
structure ConvStep where
  question : String
  key : String
deriving DecidableEq

/-- The fixed question sequence `conversationSteps` (script.js:476-483). -/
def conversationSteps : List ConvStep :=
  [ { question := "What\x27s your name and which grade level are you in?",
      key := "name_grade" },
    { question := "Which subjects are you struggling with the most? (e.g., Mathematics, Physics, Chemistry, Biology)",
      key := "subjects" },
    { question := "What are your most urgent deadlines? Please include dates if possible.",
      key := "deadlines" },
    { question := "On average, how many hours per day can you dedicate to focused study?",
      key := "studyHours" },
    { question := "On a scale of 1-10, how would you rate your current stress level regarding academics?",
      key := "stressLevel" },
    { question := "How do you prefer to learn? (Visual, Auditory, Reading/Writing, Kinesthetic, or Mixed)",
      key := "learningStyle" } ]

/-! ## The derived plan (script.js:549-572) -/

/-- `planData.profile`.  In the source `hours` is rendered as the string
`studyHours + ' hours/day'`; we keep its numeric part. -/
structure Profile where
  name : String
  style : String
  stress : String
  hours : Int
deriving DecidableEq

/-- One entry of `planData.focus_areas`.  In the source `hours` is rendered
as `(...).toFixed(1) + ' hours/day'`; we keep the rounded rational. -/
structure FocusArea where
  subject : String
  hours : ℚ
  focus : String
deriving DecidableEq

/-- `planData.techniques`. -/
structure Techniques where
  primary : String
  resources : String
  break_strategy : String
deriving DecidableEq

/-- One entry of `planData.timeline`. -/
structure TimelineItem where
  week : String
  title : String
  desc : String
  activities : String
deriving DecidableEq

/-- The `planData` object built at script.js:549-572. -/
structure PlanData where
  profile : Profile
  focus_areas : List FocusArea
  techniques : Techniques
  timeline : List TimelineItem
deriving DecidableEq

/-- script.js:546 — `const subjectsList = userData.subjects ?
userData.subjects.split(',').map(s => s.trim()) : ['General Studies']`. -/
def subjectsListOf (userData : Store) : List String :=
  if strTruthy (storeGet userData "subjects") then
    (jsSplitComma ((storeGet userData "subjects").getD "")).map jsTrim
  else ["General Studies"]

/-- script.js:547 — `const studyHours = parseInt(userData.studyHours) || 2`. -/
def studyHoursOf (userData : Store) : Int :=
  jsOrInt (jsParseIntOpt (storeGet userData "studyHours")) 2

/-- The plan-derivation block of `processUserInput` (script.js:546-572),
as a pure function of the collected answers. -/
def generatePlan (userData : Store) : PlanData :=
  let subjectsList : List String := subjectsListOf userData
  let studyHours : Int := studyHoursOf userData
  { profile :=
    { name := jsOrStr (storeGet userData "name_grade") "Student"
      style := jsOrStr (storeGet userData "learningStyle") "Mixed"
      stress := jsOrStr (storeGet userData "stressLevel") "5"
      hours := studyHours }
    focus_areas := subjectsList.map fun s =>
      { subject := s
        hours := round1 ((studyHours : ℚ) / ((max 1 subjectsList.length : ℕ) : ℚ))
        focus := "Core concepts and practice problems" }
    techniques :=
    { primary :=
        if strTruthy (storeGet userData "learningStyle")
            && strContains (jsToLower ((storeGet userData "learningStyle").getD "")) "visual" then
          "Mind Mapping & Diagrams"
        else "Pomodoro Technique"
      resources := "Textbooks, Online Videos, Practice Papers"
      break_strategy :=
        if jsGT (jsParseIntOpt (storeGet userData "stressLevel")) 7 then
          "Frequent short breaks (25/5)"
        else "Standard breaks (50/10)" }
    timeline :=
    [ { week := "Week 1", title := "Foundations",
        desc := "Review core concepts in " ++ jsOrStr (subjectsList.get? 0) "key subjects",
        activities := "Diagnostic tests, summary notes" },
      { week := "Week 2", title := "Deep Dive",
        desc := "Focus on difficult topics and weak areas",
        activities := "Practice problems, active recall sessions" },
      { week := "Week 3", title := "Application",
        desc := "Apply knowledge to past papers and complex problems",
        activities := "Timed quizzes, peer review" },
      { week := "Week 4", title := "Mastery",
        desc := "Final review and mock exams",
        activities := "Full mock exam, error analysis" } ] }

/-! ## The conversation controller (script.js:485-579) -/

/-- The mutable module state `currentStep`/`userData` (script.js:485-486). -/
structure ConvState where
  currentStep : Nat
  userData : Store
deriving DecidableEq

/-- Initial state: cursor 0, empty answer object. -/
def initState : ConvState := ⟨0, []⟩

/-- The event a `processUserInput` call hands to the presentation layer:
the call is ignored (empty trimmed input), asks the next question, emits
the derived plan, or aborts with the `TypeError` thrown at script.js:524
when `conversationSteps[currentStep]` is `undefined`. -/
inductive SubmitResult where
  | ignored
  | prompt (next : String)
  | planOut (p : PlanData)
  | stepError
deriving DecidableEq

/-- Shallow embedding of `processUserInput` (script.js:516-579): trim the
raw input and silently drop it when empty; otherwise store it under the
current step's key, advance the cursor, and either ask the next question
or derive the plan.  Reading `conversationSteps[currentStep].key` past the
end throws before any state is mutated (`stepError`).  DOM writes
(`addMessage`, spinners, `renderPlan`) and the fire-and-forget backend
save are presentation effects outside the embedded state. -/
def processUserInput (raw : String) (s : ConvState) : SubmitResult × ConvState :=
  let input := jsTrim raw
  if input = "" then (SubmitResult.ignored, s)
  else
    match conversationSteps[s.currentStep]? with
    | none => (SubmitResult.stepError, s)
    | some st =>
      let userData := storeSet s.userData st.key input
      let currentStep := s.currentStep + 1
      let s2 : ConvState := ⟨currentStep, userData⟩
      if currentStep < conversationSteps.length then
        (SubmitResult.prompt ((conversationSteps[currentStep]?.map ConvStep.question).getD ""), s2)
      else
        (SubmitResult.planOut (generatePlan userData), s2)

/-- Run a sequence of submissions from the initial state. -/
def runAll (xs : List String) : ConvState :=
  xs.foldl (fun s x => (processUserInput x s).2) initState

/-- States reachable from the initial state by arbitrary submissions. -/
inductive Reachable : ConvState → Prop where
  | init : Reachable initState
  | step : ∀ s raw, Reachable s → Reachable (processUserInput raw s).2

/-! ## Supporting lemmas -/

lemma storeGet_storeSet (m : Store) (k v q : String) :
    storeGet (storeSet m k v) q = if q = k then some v else storeGet m q := by
  induction m with
  | nil =>
    by_cases h : k = q
    · simp [storeSet, storeGet, h]
    · simp [storeSet, storeGet, h, Ne.symm h]
  | cons hd tl ih =>
    obtain ⟨k2, v2⟩ := hd
    by_cases h1 : k2 = k
    · subst h1
      by_cases h2 : k2 = q
      · subst h2; simp [storeSet, storeGet]
      · simp [storeSet, storeGet, h2, Ne.symm h2]
    · by_cases h2 : k2 = q
      · subst h2
        simp [storeSet, storeGet, h1]
      · simp [storeSet, storeGet, h1, h2, ih]

lemma storeGet_isSome_storeSet (m : Store) (k v q : String)
    (h : (storeGet (storeSet m k v) q).isSome = true) :
    q = k ∨ (storeGet m q).isSome = true := by
  rw [storeGet_storeSet] at h
  by_cases hq : q = k
  · exact Or.inl hq
  · right; simpa [hq] using h

lemma splitOnChar_ne_nil (sep : Char) (cs : List Char) : splitOnChar sep cs ≠ [] := by
  cases cs with
  | nil => simp [splitOnChar]
  | cons c rest => simp only [splitOnChar]; split <;> simp

lemma subjectsListOf_ne_nil (a : Store) : subjectsListOf a ≠ [] := by
  unfold subjectsListOf
  split
  · simp only [jsSplitComma, List.map_map, ne_eq, List.map_eq_nil_iff]
    exact splitOnChar_ne_nil _ _
  · simp

lemma one_le_length_subjectsListOf (a : Store) : 1 ≤ (subjectsListOf a).length :=
  List.length_pos.mpr (subjectsListOf_ne_nil a)

lemma isPrefixOf_self (l : List Char) : l.isPrefixOf l = true := by
  induction l with
  | nil => rfl
  | cons c rest ih => simp [List.isPrefixOf, ih]

lemma charsContain_append_self (pre n : List Char) : charsContain n (pre ++ n) = true := by
  induction pre with
  | nil =>
    cases n with
    | nil => rfl
    | cons c rest => simp [charsContain, isPrefixOf_self]
  | cons c pre ih => simp [charsContain, ih]

lemma strContains_append_self (pre s : String) : strContains (pre ++ s) s = true := by
  have h : (pre ++ s).toList = pre.toList ++ s.toList := by
    simp [String.toList, String.data_append]
  rw [strContains, h]
  exact charsContain_append_self _ _

lemma abs_round1_sub (x : ℚ) : |round1 x - x| ≤ 1 / 20 := by
  have h1 : ((⌊10 * x + 1 / 2⌋ : ℤ) : ℚ) ≤ 10 * x + 1 / 2 := Int.floor_le _
  have h2 : 10 * x + 1 / 2 - 1 < ((⌊10 * x + 1 / 2⌋ : ℤ) : ℚ) := Int.sub_one_lt_floor _
  rw [round1, abs_le]
  constructor <;> [linarith; linarith]

lemma sum_map_const {α : Type} (l : List α) (c : ℚ) :
    (l.map (fun _ => c)).sum = (l.length : ℚ) * c := by
  induction l with
  | nil => simp
  | cons x rest ih => simp [ih]; ring

/-! ## Plan projection lemmas -/

lemma plan_profile (a : Store) : (generatePlan a).profile =
    { name := jsOrStr (storeGet a "name_grade") "Student"
      style := jsOrStr (storeGet a "learningStyle") "Mixed"
      stress := jsOrStr (storeGet a "stressLevel") "5"
      hours := studyHoursOf a } := rfl

lemma plan_focus (a : Store) : (generatePlan a).focus_areas =
    (subjectsListOf a).map fun s =>
      { subject := s
        hours := round1 ((studyHoursOf a : ℚ) / ((max 1 (subjectsListOf a).length : ℕ) : ℚ))
        focus := "Core concepts and practice problems" } := rfl

lemma plan_break (a : Store) : (generatePlan a).techniques.break_strategy =
    if jsGT (jsParseIntOpt (storeGet a "stressLevel")) 7 then "Frequent short breaks (25/5)"
    else "Standard breaks (50/10)" := rfl

lemma plan_primary (a : Store) : (generatePlan a).techniques.primary =
    (if strTruthy (storeGet a "learningStyle")
        && strContains (jsToLower ((storeGet a "learningStyle").getD "")) "visual" then
      "Mind Mapping & Diagrams"
    else "Pomodoro Technique") := rfl

lemma plan_timeline_desc (a : Store) : (generatePlan a).timeline.map TimelineItem.desc =
    [ "Review core concepts in " ++ jsOrStr ((subjectsListOf a).get? 0) "key subjects",
      "Focus on difficult topics and weak areas",
      "Apply knowledge to past papers and complex problems",
      "Final review and mock exams" ] := rfl

lemma focus_map_subject (a : Store) :
    (generatePlan a).focus_areas.map FocusArea.subject = subjectsListOf a := by
  rw [plan_focus, List.map_map]
  exact List.map_id _

lemma focus_map_hours (a : Store) :
    (generatePlan a).focus_areas.map FocusArea.hours =
      (subjectsListOf a).map
        (fun _ => round1 ((studyHoursOf a : ℚ) / ((max 1 (subjectsListOf a).length : ℕ) : ℚ))) := by
  rw [plan_focus, List.map_map]
  rfl

lemma focus_length (a : Store) :
    (generatePlan a).focus_areas.length = (subjectsListOf a).length := by
  rw [plan_focus, List.length_map]

/-! ## Controller step lemmas -/

lemma conversationSteps_length : conversationSteps.length = 6 := rfl

lemma submit_empty (s : ConvState) (raw : String) (h : jsTrim raw = "") :
    processUserInput raw s = (SubmitResult.ignored, s) := by
  simp [processUserInput, h]

lemma submit_past (s : ConvState) (raw : String) (h6 : 6 ≤ s.currentStep)
    (hne : jsTrim raw ≠ "") :
    processUserInput raw s = (SubmitResult.stepError, s) := by
  have hget : conversationSteps[s.currentStep]? = none := by
    rw [List.getElem?_eq_none_iff, conversationSteps_length]; exact h6
  simp only [processUserInput]
  rw [if_neg hne, hget]

lemma submit_mid (s : ConvState) (raw : String) (st : ConvStep)
    (hne : jsTrim raw ≠ "") (hget : conversationSteps[s.currentStep]? = some st) :
    (processUserInput raw s).2 =
      ⟨s.currentStep + 1, storeSet s.userData st.key (jsTrim raw)⟩ := by
  simp only [processUserInput]
  rw [if_neg hne, hget]
  by_cases h : s.currentStep + 1 < conversationSteps.length <;> simp [h]

lemma submit_cursor (s : ConvState) (raw : String) (hne : jsTrim raw ≠ "") :
    (processUserInput raw s).2.currentStep =
      if s.currentStep < 6 then s.currentStep + 1 else s.currentStep := by
  by_cases h : s.currentStep < 6
  · obtain ⟨st, hget⟩ : ∃ st, conversationSteps[s.currentStep]? = some st :=
      ⟨_, List.getElem?_eq_getElem (by rw [conversationSteps_length]; exact h)⟩
    rw [submit_mid s raw st hne hget]
    simp [h]
  · rw [submit_past s raw (by omega) hne]
    simp [h]

lemma runAll_cursor_aux (xs : List String) :
    ∀ s : ConvState, (∀ x ∈ xs, jsTrim x ≠ "") → s.currentStep ≤ 6 →
      (xs.foldl (fun s x => (processUserInput x s).2) s).currentStep =
        min (s.currentStep + xs.length) 6 := by
  induction xs with
  | nil =>
    intro s _ h6
    simp only [List.foldl_nil, List.length_nil, Nat.add_zero]
    omega
  | cons x rest ih =>
    intro s hall h6
    have hx : jsTrim x ≠ "" := hall x (by simp)
    have hrest : ∀ y ∈ rest, jsTrim y ≠ "" := fun y hy => hall y (by simp [hy])
    have hcur := submit_cursor s x hx
    have h6' : (processUserInput x s).2.currentStep ≤ 6 := by rw [hcur]; split <;> omega
    simp only [List.foldl_cons, List.length_cons]
    rw [ih _ hrest h6', hcur]
    split <;> omega

/-! ## Example answer records -/

/-- The spec §8 scenario record: all six questions answered. -/
def exScenario : Store :=
  [("name_grade", "Sam, 10th"), ("subjects", "Math, Physics"), ("deadlines", "June 1"),
   ("studyHours", "4"), ("stressLevel", "8"), ("learningStyle", "Visual")]

/-- The scenario record with the spec §8 subjects-parsing input. -/
def exC2store : Store :=
  [("name_grade", "Sam, 10th"), ("subjects", "Math, Physics ,, Chem"), ("deadlines", "June 1"),
   ("studyHours", "4"), ("stressLevel", "8"), ("learningStyle", "Visual")]

/-- The scenario record with stress level exactly 7. -/
def exC5store : Store :=
  [("name_grade", "Sam, 10th"), ("subjects", "Math, Physics"), ("deadlines", "June 1"),
   ("studyHours", "4"), ("stressLevel", "7"), ("learningStyle", "Visual")]

/-- The scenario record with a negative study-hours answer. -/
def exC6store : Store :=
  [("name_grade", "Sam, 10th"), ("subjects", "Math"), ("deadlines", "June 1"),
   ("studyHours", "-3"), ("stressLevel", "8"), ("learningStyle", "Visual")]

/-- The scenario record with a non-numeric study-hours answer. -/
def exAbcStore : Store :=
  [("name_grade", "Sam, 10th"), ("subjects", "Math, Physics"), ("deadlines", "June 1"),
   ("studyHours", "abc"), ("stressLevel", "8"), ("learningStyle", "Visual")]

/-- The scenario record with a non-numeric stress-level answer. -/
def exC9store : Store :=
  [("name_grade", "Sam, 10th"), ("subjects", "Math, Physics"), ("deadlines", "June 1"),
   ("studyHours", "4"), ("stressLevel", "volcanic"), ("learningStyle", "Visual")]

/-! ## C1 -/

/-- C1 (amended): starting from the initial state, a run of non-empty
submissions moves the cursor to `min n 6`, so exactly 6 non-empty submits
reach completion; the 6th submit (cursor 5) sets the cursor to 6 and emits
the derived plan; any further non-empty submit leaves the state unchanged
but aborts with the `TypeError` of script.js:524 (`stepError`) instead of
being a silent no-op — and the code defines no `reset()` at all. -/
theorem C1_submit_flow :
    (∀ xs : List String, (∀ x ∈ xs, jsTrim x ≠ "") →
        (runAll xs).currentStep = min xs.length 6)
    ∧ (∀ (s : ConvState) (x : String), s.currentStep = 5 → jsTrim x ≠ "" →
        (processUserInput x s).2.currentStep = 6
        ∧ ∃ p, (processUserInput x s).1 = SubmitResult.planOut p)
    ∧ (∀ (s : ConvState) (x : String), 6 ≤ s.currentStep → jsTrim x ≠ "" →
        processUserInput x s = (SubmitResult.stepError, s)) := by
  refine ⟨?_, ?_, ?_⟩
  · intro xs hxs
    have h := runAll_cursor_aux xs initState hxs (by simp [initState])
    simpa [runAll, initState] using h
  · intro s x h5 hx
    obtain ⟨st, hget⟩ : ∃ st, conversationSteps[s.currentStep]? = some st :=
      ⟨_, List.getElem?_eq_getElem (by rw [conversationSteps_length, h5]; omega)⟩
    constructor
    · rw [submit_mid s x st hx hget]; simp [h5]
    · simp only [processUserInput]
      rw [if_neg hx, hget]
      simp [h5, conversationSteps_length]
  · intro s x h6 hx
    exact submit_past s x h6 hx

/-- Witness for C1 at a concrete complete run. -/
theorem C1_submit_flow_wit :
    (runAll ["Sam, 10th", "Math, Physics", "June 1", "4", "8", "Visual"]).currentStep
      = min 6 6 :=
  C1_submit_flow.1 ["Sam, 10th", "Math, Physics", "June 1", "4", "8", "Visual"] (by decide)

/-- C1 counterexample: after a complete 6-answer run, a 7th non-empty
submit is not a silent no-op — `conversationSteps[6]` is `undefined`, so
reading `.key` at script.js:524 throws (modelled `stepError`). -/
theorem C1_post_complete_cex :
    (processUserInput "one more answer"
        (runAll ["Sam, 10th", "Math, Physics", "June 1", "4", "8", "Visual"])).1
      = SubmitResult.stepError := by
  decide

/-! ## C8 -/

/-- C8: a submission that is empty after trimming is silently ignored: the
cursor does not advance, the answer store is untouched, and no error
event is produced. -/
theorem C8_empty_submit_noop :
    ∀ (s : ConvState) (raw : String), jsTrim raw = "" →
      processUserInput raw s = (SubmitResult.ignored, s) :=
  fun s raw h => submit_empty s raw h

/-- Witness for C8 at a whitespace-only submission. -/
theorem C8_empty_submit_noop_wit :
    jsTrim "   " = ""
    ∧ processUserInput "   " initState = (SubmitResult.ignored, initState) :=
  ⟨by decide, C8_empty_submit_noop initState "   " (by decide)⟩

/-! ## C10 -/

/-- C10: every key in a reachable answer store is one of the six fixed
question keys, and a non-empty submit at cursor position `i` writes
exactly the key of question `i` (with the trimmed input), leaving every
other key's value unchanged. -/
theorem C10_answer_keys :
    (∀ s : ConvState, Reachable s →
        ∀ k, (storeGet s.userData k).isSome = true → k ∈ conversationSteps.map ConvStep.key)
    ∧ (∀ (s : ConvState) (raw : String) (st : ConvStep), jsTrim raw ≠ "" →
        conversationSteps[s.currentStep]? = some st →
          (processUserInput raw s).2.userData = storeSet s.userData st.key (jsTrim raw)
          ∧ ∀ k, k ≠ st.key →
              storeGet (processUserInput raw s).2.userData k = storeGet s.userData k) := by
  constructor
  · intro s hs
    induction hs with
    | init => intro k hk; simp [initState, storeGet] at hk
    | step s raw _ ih =>
      intro k hk
      by_cases hraw : jsTrim raw = ""
      · rw [submit_empty s raw hraw] at hk; exact ih k hk
      · cases hget : conversationSteps[s.currentStep]? with
        | none =>
          have h6 : 6 ≤ s.currentStep := by
            rw [List.getElem?_eq_none_iff, conversationSteps_length] at hget; exact hget
          rw [submit_past s raw h6 hraw] at hk
          exact ih k hk
        | some st =>
          rw [submit_mid s raw st hraw hget] at hk
          rcases storeGet_isSome_storeSet _ _ _ _ hk with h | h
          · subst h
            exact List.mem_map_of_mem ConvStep.key (List.getElem?_mem hget)
          · exact ih k h
  · intro s raw st hraw hget
    rw [submit_mid s raw st hraw hget]
    exact ⟨rfl, fun k hk => by rw [storeGet_storeSet]; simp [hk]⟩

/-- Witness for C10: the first submit writes only `name_grade`. -/
theorem C10_answer_keys_wit :
    (processUserInput "Sam, 10th" initState).2.userData =
      storeSet initState.userData "name_grade" "Sam, 10th" :=
  (C10_answer_keys.2 initState "Sam, 10th"
    { question := "What\x27s your name and which grade level are you in?", key := "name_grade" }
    (by decide) (by decide)).1

/-! ## C2 -/

/-- C2 counterexample: the deriver does NOT drop empty tokens — the spec
scenario input `"Math, Physics ,, Chem"` yields
`["Math", "Physics", "", "Chem"]`, not `["Math", "Physics", "Chem"]`. -/
theorem C2_empty_tokens_cex :
    (generatePlan exC2store).focus_areas.map FocusArea.subject
      = ["Math", "Physics", "", "Chem"]
    ∧ (generatePlan exC2store).focus_areas.map FocusArea.subject
      ≠ ["Math", "Physics", "Chem"] := by
  constructor <;> decide

/-- C2 (amended): the subjects answer is split on commas and each token
trimmed, but empty tokens are KEPT; the `["General Studies"]` fallback is
taken exactly when the subjects answer is absent or the empty string
(never because the split produced an empty list — it cannot). -/
theorem C2_subject_parsing :
    (∀ (a : Store) (s : String), storeGet a "subjects" = some s → s ≠ "" →
        (generatePlan a).focus_areas.map FocusArea.subject = (jsSplitComma s).map jsTrim)
    ∧ (∀ a : Store, strTruthy (storeGet a "subjects") = false →
        (generatePlan a).focus_areas.map FocusArea.subject = ["General Studies"]) := by
  constructor
  · intro a s hget hne
    rw [focus_map_subject]
    unfold subjectsListOf
    rw [hget]
    simp [strTruthy, hne]
  · intro a h
    rw [focus_map_subject]
    unfold subjectsListOf
    rw [h]
    simp

/-- Witness for C2 at the spec scenario input. -/
theorem C2_subject_parsing_wit :
    (generatePlan exC2store).focus_areas.map FocusArea.subject =
      (jsSplitComma "Math, Physics ,, Chem").map jsTrim :=
  C2_subject_parsing.1 exC2store "Math, Physics ,, Chem" (by decide) (by decide)

/-! ## C3 -/

/-- C3 counterexample: with parsed subjects `["Math", "Physics"]`, the
week-2 timeline entry is the fixed string `"Focus on difficult topics and
weak areas"` and does not reference the second subject `"Physics"`. -/
theorem C3_week2_cex :
    (generatePlan exScenario).focus_areas.map FocusArea.subject = ["Math", "Physics"]
    ∧ strContains (((generatePlan exScenario).timeline.map TimelineItem.desc).getD 1 "")
        "Physics" = false := by
  constructor <;> decide

/-- C3 (amended): the derived timeline always has exactly 4 entries; the
week-1 description embeds the first parsed subject (when it is non-empty;
otherwise the fallback phrase `"key subjects"`); weeks 2, 3 and 4 are
fixed subject-agnostic templates — week 2 does NOT reference the second
parsed subject. -/
theorem C3_timeline_shape : ∀ a : Store,
    (generatePlan a).timeline.length = 4
    ∧ (∀ (s0 : String) (rest : List String),
        (generatePlan a).focus_areas.map FocusArea.subject = s0 :: rest → s0 ≠ "" →
          strContains (((generatePlan a).timeline.map TimelineItem.desc).getD 0 "") s0 = true)
    ∧ ((generatePlan a).timeline.map TimelineItem.desc).getD 1 ""
        = "Focus on difficult topics and weak areas"
    ∧ ((generatePlan a).timeline.map TimelineItem.desc).getD 2 ""
        = "Apply knowledge to past papers and complex problems"
    ∧ ((generatePlan a).timeline.map TimelineItem.desc).getD 3 ""
        = "Final review and mock exams" := by
  intro a
  refine ⟨rfl, ?_, rfl, rfl, rfl⟩
  intro s0 rest hmap hne
  have hsub : subjectsListOf a = s0 :: rest := by rw [← focus_map_subject]; exact hmap
  rw [plan_timeline_desc, hsub]
  simp only [List.getD_cons_zero, List.get?]
  rw [show jsOrStr (some s0) "key subjects" = s0 by simp [jsOrStr, hne]]
  exact strContains_append_self _ _

/-- Witness for C3: week 1 mentions the first subject of the scenario. -/
theorem C3_timeline_shape_wit :
    strContains (((generatePlan exScenario).timeline.map TimelineItem.desc).getD 0 "")
      "Math" = true :=
  (C3_timeline_shape exScenario).2.1 "Math" ["Physics"] (by decide) (by decide)

/-! ## C4 -/

/-- The claim's selection procedure, following the spec's words: match the
lowercased learning-style answer against "visual", "auditory",
"kinesthetic" in that priority order, first match picking that keyword's
bundle, no match picking the default bundle.  The spec leaves each
bundle's literal text to the implementation; in this implementation the
visual bundle is "Mind Mapping & Diagrams" and the auditory, kinesthetic
and default ("mixed") bundles all carry the same literal
"Pomodoro Technique". -/
def specPrimaryMethod (style : Option String) : String :=
  let sLower := jsToLower (style.getD "")
  if strContains sLower "visual" then "Mind Mapping & Diagrams"
  else if strContains sLower "auditory" then "Pomodoro Technique"
  else if strContains sLower "kinesthetic" then "Pomodoro Technique"
  else "Pomodoro Technique"

/-- C4: the derived primary method coincides, on every answers record,
with the spec's case-insensitive priority matcher.  (The source tests only
'visual'; this agrees with the matcher extensionally because the auditory,
kinesthetic and default bundles share one literal — see
`specPrimaryMethod`.) -/
theorem C4_technique_refines_spec :
    ∀ a : Store,
      (generatePlan a).techniques.primary = specPrimaryMethod (storeGet a "learningStyle") := by
  intro a
  rw [plan_primary]
  cases h : storeGet a "learningStyle" with
  | none => rfl
  | some s =>
    by_cases hs : s = ""
    · subst hs; rfl
    · simp only [specPrimaryMethod, strTruthy, Option.getD]
      have hb : (s != "") = true := by simp [hs]
      simp only [hb, Bool.true_and]
      by_cases hc : strContains (jsToLower s) "visual" = true
      · rw [if_pos hc, if_pos hc]
      · rw [if_neg hc, if_neg hc]
        simp only [ite_self]

/-! ## C5 -/

/-- C5 counterexample: a stress level of exactly 7 parses to 7 (which the
claim's `>= 7` rule would send to the frequent-breaks bundle), yet the
code's strict `> 7` comparison yields the standard-breaks bundle. -/
theorem C5_stress7_cex :
    jsParseIntOpt (storeGet exC5store "stressLevel") = some 7
    ∧ (generatePlan exC5store).techniques.break_strategy
        ≠ "Frequent short breaks (25/5)" := by
  constructor <;> decide

/-- C5 (amended): the frequent-breaks bundle is chosen exactly when the
stress answer parses to an integer STRICTLY greater than 7; in every other
case (including an unparseable answer, modelled `none`) the standard
bundle is chosen. -/
theorem C5_break_threshold : ∀ a : Store,
    ((generatePlan a).techniques.break_strategy = "Frequent short breaks (25/5)"
      ↔ ∃ v : ℤ, jsParseIntOpt (storeGet a "stressLevel") = some v ∧ 7 < v)
    ∧ ((generatePlan a).techniques.break_strategy = "Frequent short breaks (25/5)"
      ∨ (generatePlan a).techniques.break_strategy = "Standard breaks (50/10)") := by
  intro a
  refine ⟨?_, ?_⟩
  · rw [plan_break]
    cases hp : jsParseIntOpt (storeGet a "stressLevel") with
    | none =>
      constructor
      · intro h
        exact absurd h (by simp [jsGT])
      · rintro ⟨v, hv, -⟩; cases hv
    | some v =>
      by_cases h7 : (7 : ℤ) < v
      · have hb : jsGT (some v) 7 = true := by simp [jsGT, h7]
        rw [if_pos hb]
        exact ⟨fun _ => ⟨v, rfl, h7⟩, fun _ => rfl⟩
      · have hb : jsGT (some v) 7 = false := by simp [jsGT, h7]
        rw [if_neg (by simp [hb])]
        constructor
        · intro h; exact absurd h (by decide)
        · rintro ⟨w, hw, h7w⟩
          injection hw with hw
          exact absurd (hw ▸ h7w) h7
  · rw [plan_break]
    split
    · exact Or.inl rfl
    · exact Or.inr rfl

/-- Witness for C5: the scenario stress level 8 picks frequent breaks. -/
theorem C5_break_threshold_wit :
    (generatePlan exScenario).techniques.break_strategy = "Frequent short breaks (25/5)" :=
  ((C5_break_threshold exScenario).1).mpr ⟨8, by decide, by decide⟩

/-! ## C6 -/

/-- C6 counterexample: a NEGATIVE parsed study-hours value is truthy in
JS, so `parseInt(...) || 2` keeps it instead of substituting the default
2 as the claim requires for non-positive values. -/
theorem C6_negative_hours_cex :
    (generatePlan exC6store).profile.hours = -3
    ∧ ¬ (generatePlan exC6store).profile.hours = 2 := by
  constructor <;> decide

/-- C6 (amended): the study-hours answer is parsed with `parseInt` and the
default 2 is substituted exactly when the parse fails (`NaN`) or yields 0;
any other parsed value — negative ones included — is kept, and whatever
value results is the one used for every per-subject allocation. -/
theorem C6_hours_fallback : ∀ a : Store,
    (jsParseIntOpt (storeGet a "studyHours") = none → (generatePlan a).profile.hours = 2)
    ∧ (jsParseIntOpt (storeGet a "studyHours") = some 0 → (generatePlan a).profile.hours = 2)
    ∧ (∀ v : ℤ, jsParseIntOpt (storeGet a "studyHours") = some v → v ≠ 0 →
        (generatePlan a).profile.hours = v)
    ∧ ∀ f ∈ (generatePlan a).focus_areas,
        f.hours = round1 (((generatePlan a).profile.hours : ℚ)
          / ((generatePlan a).focus_areas.length : ℚ)) := by
  intro a
  have hprof : (generatePlan a).profile.hours = studyHoursOf a := by rw [plan_profile]
  refine ⟨?_, ?_, ?_, ?_⟩
  · intro h; rw [hprof]; unfold studyHoursOf; rw [h]; rfl
  · intro h; rw [hprof]; unfold studyHoursOf; rw [h]; rfl
  · intro v h hv; rw [hprof]; unfold studyHoursOf; rw [h]; simp [jsOrInt, hv]
  · intro f hf
    rw [hprof, focus_length]
    rw [plan_focus] at hf
    obtain ⟨s, -, rfl⟩ := List.mem_map.mp hf
    have h1 : (1 : ℕ) ≤ (subjectsListOf a).length := one_le_length_subjectsListOf a
    have hmax : max 1 (subjectsListOf a).length = (subjectsListOf a).length := by omega
    rw [hmax]

/-- Witness for C6: `studyHours = "abc"` falls back to the default 2. -/
theorem C6_hours_fallback_wit :
    (generatePlan exAbcStore).profile.hours = 2 :=
  (C6_hours_fallback exAbcStore).1 (by decide)

/-! ## C7 -/

/-- C7: with a positive parsed study-hours value `v` and `k` parsed
subjects, every focus area is allocated `round1 (v / k)` hours (the
uniform split rounded to one decimal), and the allocation total differs
from `v` by at most `0.1 * k`. -/
theorem C7_allocation_sum : ∀ (a : Store) (v : ℤ),
    jsParseIntOpt (storeGet a "studyHours") = some v → 0 < v →
    (∀ f ∈ (generatePlan a).focus_areas,
        f.hours = round1 ((v : ℚ) / ((generatePlan a).focus_areas.length : ℚ)))
    ∧ |((generatePlan a).focus_areas.map FocusArea.hours).sum - (v : ℚ)|
        ≤ ((generatePlan a).focus_areas.length : ℚ) * (1 / 10) := by
  intro a v hv hpos
  have hvne : v ≠ 0 := by omega
  have hsh : studyHoursOf a = v := by
    unfold studyHoursOf; rw [hv]; simp [jsOrInt, hvne]
  have h1 : (1 : ℕ) ≤ (subjectsListOf a).length := one_le_length_subjectsListOf a
  have hmax : max 1 (subjectsListOf a).length = (subjectsListOf a).length := by omega
  have hlen : (generatePlan a).focus_areas.length = (subjectsListOf a).length :=
    focus_length a
  have hkQ : (0 : ℚ) < ((subjectsListOf a).length : ℚ) := by
    exact_mod_cast Nat.lt_of_lt_of_le Nat.zero_lt_one h1
  constructor
  · intro f hf
    rw [hlen]
    rw [plan_focus] at hf
    obtain ⟨s, -, rfl⟩ := List.mem_map.mp hf
    rw [hsh, hmax]
  · have hmap : (generatePlan a).focus_areas.map FocusArea.hours =
        (subjectsListOf a).map
          (fun _ => round1 ((v : ℚ) / ((subjectsListOf a).length : ℚ))) := by
      rw [focus_map_hours]
      simp only [hsh, hmax]
    rw [hmap, sum_map_const, hlen]
    set k : ℚ := ((subjectsListOf a).length : ℚ) with hkdef
    set c : ℚ := round1 ((v : ℚ) / k) with hcdef
    have hr : |c - (v : ℚ) / k| ≤ 1 / 20 := abs_round1_sub _
    have hfact : k * c - (v : ℚ) = k * (c - (v : ℚ) / k) := by
      field_simp
      ring
    calc |k * c - (v : ℚ)| = |k| * |c - (v : ℚ) / k| := by rw [hfact, abs_mul]
      _ = k * |c - (v : ℚ) / k| := by rw [abs_of_pos hkQ]
      _ ≤ k * (1 / 20) := by gcongr
      _ ≤ k * (1 / 10) := by gcongr; norm_num

/-- Witness for C7 at the scenario record (4 hours over two subjects). -/
theorem C7_allocation_sum_wit :
    jsParseIntOpt (storeGet exScenario "studyHours") = some 4
    ∧ |((generatePlan exScenario).focus_areas.map FocusArea.hours).sum - ((4 : ℤ) : ℚ)|
        ≤ ((generatePlan exScenario).focus_areas.length : ℚ) * (1 / 10) :=
  ⟨by decide, (C7_allocation_sum exScenario 4 (by decide) (by decide)).2⟩

/-! ## C9 -/

/-- C9 counterexample: an unparseable stress answer is truthy, so the
profile keeps the raw string `"volcanic"` — it is neither an integer in
1-10 nor the default 5 the claim requires for unparseable input. -/
theorem C9_stress_raw_cex :
    jsParseInt "volcanic" = none
    ∧ (generatePlan exC9store).profile.stress = "volcanic"
    ∧ ¬ (generatePlan exC9store).profile.stress = "5" := by
  refine ⟨by decide, by decide, by decide⟩

/-- C9 (amended): the profile's stress field is the RAW stress answer
string (not parsed or range-checked), with `"5"` substituted only when the
answer is absent or empty; the profile's hours field is
`parseInt(studyHours) || 2`, which is 2 on parse failure or 0 but is kept
verbatim otherwise, so it can be negative (not always positive). -/
theorem C9_profile_fields : ∀ a : Store,
    ((storeGet a "stressLevel" = none ∨ storeGet a "stressLevel" = some "") →
        (generatePlan a).profile.stress = "5")
    ∧ (∀ s : String, storeGet a "stressLevel" = some s → s ≠ "" →
        (generatePlan a).profile.stress = s)
    ∧ ((jsParseIntOpt (storeGet a "studyHours") = none
          ∨ jsParseIntOpt (storeGet a "studyHours") = some 0) →
        (generatePlan a).profile.hours = 2)
    ∧ ∃ b : Store, (generatePlan b).profile.hours < 0 := by
  intro a
  refine ⟨?_, ?_, ?_, ⟨[("studyHours", "-3")], by decide⟩⟩
  · rintro (h | h) <;> rw [plan_profile] <;> simp [jsOrStr, h]
  · intro s h hs
    rw [plan_profile]
    simp [jsOrStr, h, hs]
  · rintro (h | h) <;> rw [plan_profile] <;> simp [studyHoursOf, jsOrInt, h]

/-- Witness for C9: the scenario stress answer "8" is kept verbatim. -/
theorem C9_profile_fields_wit :
    (generatePlan exScenario).profile.stress = "8" :=
  (C9_profile_fields exScenario).2.1 "8" (by decide) (by decide)
